import Mathlib

/-!
Shallow embedding of the order-management core: error taxonomy
(src/utils/errors.ts), order service (order.service.ts), payment simulator
(payment.service.ts) and controller error mapping (order.controller.ts).
JavaScript numbers are modelled as rationals; `Number.toFixed(2)` is modelled
as rounding to the nearest multiple of 1/100, half toward positive infinity
(which is what `toFixed` does on exact decimal ties). Randomness is modelled
by passing the values of the individual random draws explicitly, together
with a trace of which draws a call performs, in order.
-/

-- Equality of `Except` results is decidable when both components' is.
deriving instance DecidableEq for Except

/-- Order status enumeration (order.types.ts, `OrderStatus`). -/
inductive OrderStatus
  | pending
  | confirmed
  | processing
  | shipped
  | delivered
  | cancelled
  | refunded
deriving DecidableEq, Repr, Fintype

/-- Payment status enumeration (order.types.ts, `PaymentStatus`). -/
inductive PaymentStatus
  | pending
  | processing
  | completed
  | failed
  | refunded
deriving DecidableEq, Repr, Fintype

/-- Payment method enumeration (order.types.ts, `PaymentMethod`). -/
inductive PaymentMethod
  | credit_card
  | debit_card
  | paypal
  | stripe
  | bank_transfer
deriving DecidableEq, Repr, Fintype

/-- The string value of an `OrderStatus` enum member, as used in error
messages (`Invalid status transition from ${currentStatus} to ${newStatus}`). -/
def OrderStatus.str : OrderStatus → String
  | .pending => "pending"
  | .confirmed => "confirmed"
  | .processing => "processing"
  | .shipped => "shipped"
  | .delivered => "delivered"
  | .cancelled => "cancelled"
  | .refunded => "refunded"

/-- One entry of a `ValidationError`'s detail list (errors.ts). -/
structure ValidationIssue where
  message : String
  field : Option String
deriving DecidableEq, Repr

/-- The typed domain errors of errors.ts: ValidationError, NotFoundError,
BusinessError, PaymentError, DatabaseError (all subclasses of `CustomError`). -/
inductive ServiceError
  | validation (errors : List ValidationIssue)
  | notFound (resource : String) (id : Option String)
  | business (message : String)
  | payment (message : String)
  | database (message : String)
deriving DecidableEq, Repr

/-- The `statusCode` field each error subclass fixes (errors.ts). -/
def ServiceError.statusCode : ServiceError → Nat
  | .validation _ => 400
  | .notFound _ _ => 404
  | .business _ => 422
  | .payment _ => 402
  | .database _ => 500

/-- The `errorCode` field each error subclass fixes (errors.ts). -/
def ServiceError.errorCode : ServiceError → String
  | .validation _ => "VALIDATION_ERROR"
  | .notFound _ _ => "NOT_FOUND"
  | .business _ => "BUSINESS_ERROR"
  | .payment _ => "PAYMENT_ERROR"
  | .database _ => "DATABASE_ERROR"

/-- The `message` each error constructor passes to `super` (errors.ts):
ValidationError uses the fixed string "Validation failed"; NotFoundError
builds its message from resource and optional id. -/
def ServiceError.message : ServiceError → String
  | .validation _ => "Validation failed"
  | .notFound resource none => resource ++ " not found"
  | .notFound resource (some i) => resource ++ " with id " ++ i ++ " not found"
  | .business m => m
  | .payment m => m
  | .database m => m

/-- A value thrown in the service layer: either one of the typed domain
errors (instances of `CustomError`, which extends `Error`), a plain
`Error` with a message, or a non-`Error` thrown value. -/
inductive JsError
  | typed (e : ServiceError)
  | generic (message : String)
  | nonError
deriving DecidableEq, Repr

/-- The `.message` of a thrown value when it is an `Error` instance. -/
def JsError.errMessage : JsError → Option String
  | .typed e => some e.message
  | .generic m => some m
  | .nonError => none

/-- A line item (order.types.ts, `IOrderItem`). -/
structure OrderItem where
  productId : String
  productName : String
  productSku : String
  quantity : Nat
  unitPrice : ℚ
  totalPrice : ℚ
  productImage : Option String
deriving DecidableEq, Repr

/-- Embedding of `Number(x.toFixed(2))`: round to 2 decimal places (nearest multiple of
1/100, half toward positive infinity, matching `toFixed` on decimal ties). -/
def round2 (q : ℚ) : ℚ := (round (q * 100) : ℤ) / 100

/-- The record returned by `OrderService.calculateOrderTotals`. -/
structure OrderTotals where
  subtotal : ℚ
  taxAmount : ℚ
  shippingAmount : ℚ
  discountAmount : ℚ
  totalAmount : ℚ
deriving DecidableEq, Repr

/-- Embedding of `OrderService.calculateOrderTotals` (order.service.ts): subtotal is a
left fold of `+ item.totalPrice` over 0 (`items.reduce`), tax is 10% of
subtotal, shipping is 0 over 50 else 10, discount is 10% over 100 else 0,
total is their signed sum; each of the five is rounded independently. -/
def calculateOrderTotals (items : List OrderItem) : OrderTotals :=
  let subtotal := items.foldl (fun sum item => sum + item.totalPrice) 0
  let taxAmount := subtotal * (1/10)
  let shippingAmount : ℚ := if subtotal > 50 then 0 else 10
  let discountAmount := if subtotal > 100 then subtotal * (1/10) else 0
  let totalAmount := subtotal + taxAmount + shippingAmount - discountAmount
  { subtotal := round2 subtotal
    taxAmount := round2 taxAmount
    shippingAmount := round2 shippingAmount
    discountAmount := round2 discountAmount
    totalAmount := round2 totalAmount }

/-- The `validTransitions` record of `OrderService.validateStatusTransition`
(order.service.ts). -/
def validTransitions : OrderStatus → List OrderStatus
  | .pending => [.confirmed, .cancelled]
  | .confirmed => [.processing, .cancelled]
  | .processing => [.shipped, .cancelled]
  | .shipped => [.delivered]
  | .delivered => [.refunded]
  | .cancelled => []
  | .refunded => []

/-- Embedding of `OrderService.validateStatusTransition` (order.service.ts): succeeds
when the requested status is in the current status's allowed list, else
throws a `BusinessError` naming both statuses. -/
def validateStatusTransition (currentStatus newStatus : OrderStatus) :
    Except ServiceError Unit :=
  if (validTransitions currentStatus).contains newStatus then .ok ()
  else .error (.business ("Invalid status transition from " ++
    currentStatus.str ++ " to " ++ newStatus.str))

/-- The order fields the service operations read and write
(order.types.ts `IOrder`, restricted to the fields the embedded
operations touch; timestamps are out of scope). -/
structure Order where
  id : String
  userId : String
  status : OrderStatus
  paymentStatus : PaymentStatus
  paymentId : Option String
  totalAmount : ℚ
  currency : String
deriving DecidableEq, Repr

/-- Embedding of `ProcessPaymentDTO` (order.types.ts): the argument record the service
passes to `paymentService.processPayment`. -/
structure ProcessPaymentDTO where
  orderId : String
  paymentMethod : PaymentMethod
  amount : ℚ
  currency : String
deriving DecidableEq, Repr

/-- The result record of `PaymentService.processPayment`
(payment.service.ts). -/
structure PaymentResult where
  paymentId : String
  status : PaymentStatus
  transactionId : String
  message : String
deriving DecidableEq, Repr

/-- Embedding of `OrderService.updateOrderStatus` after the fetch: `lookup` is the result
of `OrderModel.findById(orderId)`; absent order throws `NotFoundError`;
otherwise the transition is validated and, on success, the status field is
written and the order persisted (order.service.ts). -/
def updateOrderStatus (orderId : String) (lookup : Option Order)
    (newStatus : OrderStatus) : Except ServiceError Order :=
  match lookup with
  | none => .error (.notFound "Order" (some orderId))
  | some order =>
    match validateStatusTransition order.status newStatus with
    | .error e => .error e
    | .ok _ => .ok { order with status := newStatus }

/-- Embedding of `OrderService.processPayment` after the fetch (order.service.ts):
guards on completed payment and cancelled status, then calls the payment
service with the order's stored total and currency, stores the returned
status and payment id, and sets status to confirmed exactly when the
returned payment status is completed. `sim` is the payment collaborator;
a thrown simulator error propagates via `.error`. -/
def processPayment (orderId : String) (lookup : Option Order)
    (paymentMethod : PaymentMethod)
    (sim : ProcessPaymentDTO → Except ServiceError PaymentResult) :
    Except ServiceError Order :=
  match lookup with
  | none => .error (.notFound "Order" (some orderId))
  | some order =>
    if order.paymentStatus = .completed then
      .error (.business "Payment already completed for this order")
    else if order.status = .cancelled then
      .error (.business "Cannot process payment for cancelled order")
    else
      match sim { orderId := orderId, paymentMethod := paymentMethod,
                  amount := order.totalAmount, currency := order.currency } with
      | .error e => .error e
      | .ok paymentResult =>
        let order1 := { order with paymentStatus := paymentResult.status,
                                   paymentId := some paymentResult.paymentId }
        let order2 := if paymentResult.status = .completed
          then { order1 with status := OrderStatus.confirmed } else order1
        .ok order2

/-- Embedding of `OrderService.cancelOrder` after the fetch (order.service.ts): guards
on already-cancelled and on shipped/delivered, then writes status
cancelled. -/
def cancelOrder (orderId : String) (lookup : Option Order) :
    Except ServiceError Order :=
  match lookup with
  | none => .error (.notFound "Order" (some orderId))
  | some order =>
    if order.status = .cancelled then
      .error (.business "Order is already cancelled")
    else if order.status = .delivered ∨ order.status = .shipped then
      .error (.business "Cannot cancel order that has already been shipped or delivered")
    else
      .ok { order with status := OrderStatus.cancelled }

/-- The random draws available to one `PaymentService.processPayment` call:
the `Math.random()` of the delay, the `uuidv4()` payment id, the
`Date.now()` and `Math.random()`-derived suffix of the transaction id, and
the `Math.random()` of the credit-card and paypal probability checks. -/
structure PaymentRandom where
  delayDraw : ℚ
  uuid : String
  nowMillis : Nat
  txnSuffix : String
  ccDraw : ℚ
  ppDraw : ℚ
deriving DecidableEq, Repr

/-- The randomization events of a `PaymentService.processPayment` call, in
execution order: the delay's random draw, the `uuidv4()` draw, the
transaction-suffix draw, and the credit-card / paypal probability draws. -/
inductive RandEvent
  | delayDraw
  | uuidDraw
  | txnDraw
  | ccDraw
  | ppDraw
deriving DecidableEq, Repr

/-- Embedding of `PaymentService.simulatePaymentOutcome` (payment.service.ts), also
returning the ordered trace of random draws it performs. The payment id
and transaction id are generated first; the amount ceiling is checked
after that; then the method-specific probability branches run. -/
def simulatePaymentOutcome (r : PaymentRandom) (paymentData : ProcessPaymentDTO) :
    Except ServiceError PaymentResult × List RandEvent :=
  let paymentId := r.uuid
  let transactionId := "TXN-" ++ toString r.nowMillis ++ "-" ++ r.txnSuffix
  let idEvents : List RandEvent := [.uuidDraw, .txnDraw]
  if paymentData.amount > 10000 then
    (.error (.payment "Payment amount exceeds limit"), idEvents)
  else if paymentData.paymentMethod = .credit_card then
    if r.ccDraw < 1/10 then
      (.ok { paymentId := paymentId, status := .failed,
             transactionId := transactionId,
             message := "Credit card declined" }, idEvents ++ [.ccDraw])
    else
      (.ok { paymentId := paymentId, status := .completed,
             transactionId := transactionId,
             message := "Payment processed successfully" }, idEvents ++ [.ccDraw])
  else if paymentData.paymentMethod = .paypal then
    if r.ppDraw < 1/20 then
      (.ok { paymentId := paymentId, status := .failed,
             transactionId := transactionId,
             message := "PayPal payment failed" }, idEvents ++ [.ppDraw])
    else
      (.ok { paymentId := paymentId, status := .completed,
             transactionId := transactionId,
             message := "Payment processed successfully" }, idEvents ++ [.ppDraw])
  else
    (.ok { paymentId := paymentId, status := .completed,
           transactionId := transactionId,
           message := "Payment processed successfully" }, idEvents)

/-- Embedding of `PaymentService.processPayment` (payment.service.ts): awaits the random
processing delay, then simulates the outcome. The returned trace lists
every random draw the call performs, in order: the delay draw happens
before anything `simulatePaymentOutcome` does. -/
def paymentServiceProcessPayment (r : PaymentRandom)
    (paymentData : ProcessPaymentDTO) :
    Except ServiceError PaymentResult × List RandEvent :=
  let result := simulatePaymentOutcome r paymentData
  (result.1, RandEvent.delayDraw :: result.2)

/-- The catch block of `OrderService.createOrder` (order.service.ts): every
thrown `Error` — typed domain errors included, since `CustomError` extends
`Error` and no `instanceof CustomError` check is made here — is wrapped as
`DatabaseError("Failed to create order: " + message)`; a non-`Error` value
becomes `DatabaseError("Failed to create order")`. -/
def createOrderCatch : JsError → ServiceError
  | .typed e => .database ("Failed to create order: " ++ e.message)
  | .generic m => .database ("Failed to create order: " ++ m)
  | .nonError => .database "Failed to create order"

/-- The catch block of `OrderService.getOrderById`: a `CustomError` is
rethrown unchanged; anything else is wrapped as a `DatabaseError` with the
underlying message (or "Unknown error" for a non-`Error` value). -/
def getOrderByIdCatch : JsError → ServiceError
  | .typed e => e
  | .generic m => .database ("Failed to fetch order: " ++ m)
  | .nonError => .database ("Failed to fetch order: " ++ "Unknown error")

/-- The catch block of `OrderService.getOrdersByUserId`: every thrown value
is wrapped as `DatabaseError("Failed to fetch user orders")`; there is no
`instanceof CustomError` check here. -/
def getOrdersByUserIdCatch : JsError → ServiceError
  | _ => .database "Failed to fetch user orders"

/-- The catch block of `OrderService.updateOrderStatus`: a `CustomError`
is rethrown unchanged; anything else becomes
`DatabaseError("Failed to update order status")`. -/
def updateOrderStatusCatch : JsError → ServiceError
  | .typed e => e
  | _ => .database "Failed to update order status"

/-- The catch block of `OrderService.processPayment`: a `CustomError` is
rethrown unchanged; anything else becomes
`DatabaseError("Failed to process payment")`. -/
def processPaymentCatch : JsError → ServiceError
  | .typed e => e
  | _ => .database "Failed to process payment"

/-- The catch block of `OrderService.cancelOrder`: a `CustomError` is
rethrown unchanged; anything else becomes
`DatabaseError("Failed to cancel order")`. -/
def cancelOrderCatch : JsError → ServiceError
  | .typed e => e
  | _ => .database "Failed to cancel order"

/-- The JSON error payload `OrderController.handleError` writes, with the
HTTP status it is sent under (order.controller.ts). -/
structure HttpErrorResponse where
  httpStatus : Nat
  code : String
  message : String
  details : Option (List ValidationIssue)
deriving DecidableEq, Repr

/-- Embedding of `OrderController.handleError` (order.controller.ts): three
`instanceof` cases — ValidationError to 400, NotFoundError to 404,
BusinessError to 422, each using the error's own code and message — and a
catch-all 500 with the fixed code `INTERNAL_ERROR` and fixed message. -/
def handleError : JsError → HttpErrorResponse
  | .typed (.validation errs) =>
    { httpStatus := 400, code := (ServiceError.validation errs).errorCode,
      message := (ServiceError.validation errs).message, details := some errs }
  | .typed (.notFound resource i) =>
    { httpStatus := 404, code := (ServiceError.notFound resource i).errorCode,
      message := (ServiceError.notFound resource i).message, details := none }
  | .typed (.business m) =>
    { httpStatus := 422, code := (ServiceError.business m).errorCode,
      message := m, details := none }
  | _ =>
    { httpStatus := 500, code := "INTERNAL_ERROR",
      message := "An internal server error occurred", details := none }

/-!
Spec-side definitions, written from the specification's words, to be
compared with the embedded source functions.
-/

/-- Modelled from the spec, section 4.2: the legal transition graph
`pending → {confirmed, cancelled}`, `confirmed → {processing, cancelled}`,
`processing → {shipped, cancelled}`, `shipped → {delivered}`,
`delivered → {refunded}`, `cancelled → {}`, `refunded → {}`. -/
def specAllowed : OrderStatus → List OrderStatus
  | .pending => [.confirmed, .cancelled]
  | .confirmed => [.processing, .cancelled]
  | .processing => [.shipped, .cancelled]
  | .shipped => [.delivered]
  | .delivered => [.refunded]
  | .cancelled => []
  | .refunded => []

/-- The sum of the items' `totalPrice`, as the spec describes the
subtotal (section 4.1, step 1). -/
def specSubtotal (items : List OrderItem) : ℚ :=
  (items.map (fun item => item.totalPrice)).sum

/-- Folding `+ totalPrice` from an accumulator computes the accumulator plus
the sum of the items' `totalPrice`. -/
lemma foldl_totalPrice (l : List OrderItem) (q : ℚ) :
    l.foldl (fun sum item => sum + item.totalPrice) q = q + specSubtotal l := by
  induction l generalizing q with
  | nil => simp [specSubtotal]
  | cons a t ih => simp [specSubtotal, ih, List.map_cons, List.sum_cons] at *; ring

/-- C1: for every list of line items, the totals calculator returns
subtotal equal to the sum of the items' `totalPrice`, taxAmount equal to
subtotal * 0.10, shippingAmount equal to 0 if subtotal > 50 and 10
otherwise, discountAmount equal to subtotal * 0.10 if subtotal > 100 and 0
otherwise, and totalAmount equal to subtotal + taxAmount + shippingAmount -
discountAmount, each of the five values rounded to 2 decimal places
independently of the others. -/
theorem calculateOrderTotals_spec (items : List OrderItem) :
    calculateOrderTotals items =
      { subtotal := round2 (specSubtotal items)
        taxAmount := round2 (specSubtotal items * (1/10))
        shippingAmount := round2 (if specSubtotal items > 50 then 0 else 10)
        discountAmount :=
          round2 (if specSubtotal items > 100 then specSubtotal items * (1/10) else 0)
        totalAmount := round2 (specSubtotal items + specSubtotal items * (1/10) +
          (if specSubtotal items > 50 then (0:ℚ) else 10) -
          (if specSubtotal items > 100 then specSubtotal items * (1/10) else 0)) } := by
  have h := foldl_totalPrice items 0
  rw [zero_add] at h
  simp only [calculateOrderTotals, h]

/-- C2: the status transition validator succeeds exactly when the requested
status is in the current status's allowed set of the fixed graph, and
otherwise fails with a business-rule error naming both statuses; no status
is in its own allowed set, pending → cancelled succeeds, shipped → pending
fails with a business error, and cancelled → anything always fails. -/
theorem validateStatusTransition_spec :
    (∀ c n : OrderStatus,
      validateStatusTransition c n = .ok () ↔ n ∈ specAllowed c) ∧
    (∀ c n : OrderStatus, n ∉ specAllowed c →
      validateStatusTransition c n = .error (.business
        ("Invalid status transition from " ++ c.str ++ " to " ++ n.str))) ∧
    (∀ s : OrderStatus, s ∉ specAllowed s) ∧
    validateStatusTransition .pending .cancelled = .ok () ∧
    validateStatusTransition .shipped .pending = .error (.business
      "Invalid status transition from shipped to pending") ∧
    (∀ n : OrderStatus, validateStatusTransition .cancelled n = .error (.business
      ("Invalid status transition from cancelled to " ++ n.str))) := by
  refine ⟨by decide, ?_, by decide, by decide, by decide, by decide⟩
  intro c n h
  revert h
  cases c <;> cases n <;> decide

/-- Closed witness for the hypotheses of `validateStatusTransition_spec`:
the transition shipped → pending is outside the graph and the validator
rejects it with the message naming both statuses. -/
theorem validateStatusTransition_spec_witness :
    validateStatusTransition .shipped .pending = .error (.business
      ("Invalid status transition from " ++ OrderStatus.shipped.str ++ " to " ++
        OrderStatus.pending.str)) :=
  validateStatusTransition_spec.2.1 .shipped .pending (by decide)

/-- C9 counterexample: the catch block of `createOrder` does not let a typed
domain error pass unchanged — a `NotFoundError` thrown inside it comes out
wrapped as a `DatabaseError`. -/
theorem createOrderCatch_counterexample :
    createOrderCatch (.typed (.notFound "Order" (some "order-1"))) ≠
      .notFound "Order" (some "order-1") := by
  decide

/-- C9 amended: getOrderById, updateOrderStatus, processPayment and
cancelOrder propagate the typed domain errors unchanged and wrap any other
failure as a database error; createOrder and getOrdersByUserId instead wrap
every failure — typed domain errors included — as a database error. -/
theorem serviceErrorPolicy :
    (∀ e : ServiceError, getOrderByIdCatch (.typed e) = e) ∧
    (∀ e : ServiceError, updateOrderStatusCatch (.typed e) = e) ∧
    (∀ e : ServiceError, processPaymentCatch (.typed e) = e) ∧
    (∀ e : ServiceError, cancelOrderCatch (.typed e) = e) ∧
    (∀ m, getOrderByIdCatch (.generic m) =
      .database ("Failed to fetch order: " ++ m)) ∧
    (∀ m, updateOrderStatusCatch (.generic m) =
      .database "Failed to update order status") ∧
    (∀ m, processPaymentCatch (.generic m) =
      .database "Failed to process payment") ∧
    (∀ m, cancelOrderCatch (.generic m) =
      .database "Failed to cancel order") ∧
    (∀ e : ServiceError, createOrderCatch (.typed e) =
      .database ("Failed to create order: " ++ e.message)) ∧
    (∀ m, createOrderCatch (.generic m) =
      .database ("Failed to create order: " ++ m)) ∧
    (∀ j : JsError, getOrdersByUserIdCatch j =
      .database "Failed to fetch user orders") := by
  exact ⟨fun _ => rfl, fun _ => rfl, fun _ => rfl, fun _ => rfl, fun _ => rfl,
    fun _ => rfl, fun _ => rfl, fun _ => rfl, fun _ => rfl, fun _ => rfl,
    fun _ => rfl⟩

/-- C10: the controller's error handler maps a thrown error by exactly
three typed cases — ValidationError to 400, NotFoundError to 404,
BusinessError to 422 — and every other error, including a PaymentError
whose own statusCode field is 402, to HTTP 500 with code INTERNAL_ERROR
and the fixed message; a PaymentError is never returned as 402. -/
theorem handleError_spec :
    (∀ errs, handleError (.typed (.validation errs)) =
      { httpStatus := 400, code := "VALIDATION_ERROR",
        message := "Validation failed", details := some errs }) ∧
    (∀ r i, handleError (.typed (.notFound r i)) =
      { httpStatus := 404, code := "NOT_FOUND",
        message := (ServiceError.notFound r i).message, details := none }) ∧
    (∀ m, handleError (.typed (.business m)) =
      { httpStatus := 422, code := "BUSINESS_ERROR",
        message := m, details := none }) ∧
    (∀ m, handleError (.typed (.payment m)) =
      { httpStatus := 500, code := "INTERNAL_ERROR",
        message := "An internal server error occurred", details := none }) ∧
    (∀ m, (ServiceError.payment m).statusCode = 402) ∧
    (∀ m, handleError (.typed (.database m)) =
      { httpStatus := 500, code := "INTERNAL_ERROR",
        message := "An internal server error occurred", details := none }) ∧
    (∀ m, handleError (.generic m) =
      { httpStatus := 500, code := "INTERNAL_ERROR",
        message := "An internal server error occurred", details := none }) ∧
    handleError .nonError =
      { httpStatus := 500, code := "INTERNAL_ERROR",
        message := "An internal server error occurred", details := none } := by
  exact ⟨fun _ => rfl, fun _ _ => rfl, fun _ => rfl, fun _ => rfl,
    fun _ => rfl, fun _ => rfl, fun _ => rfl, rfl⟩

/-- C5: processPayment fails with a not-found error when no order has the
id; fails with a business error when the order's payment status is already
completed; fails with a business error when the order's status is
cancelled; otherwise it calls the payment simulator with the order's
stored total amount and currency, stores the returned payment status and
payment identifier on the order (a failed outcome is stored, not thrown),
sets the order status to confirmed exactly when the returned payment
status is completed, and returns the updated order. -/
theorem processPayment_spec :
    (∀ (orderId : String) (pm : PaymentMethod) sim,
      processPayment orderId none pm sim =
        .error (.notFound "Order" (some orderId))) ∧
    (∀ (orderId : String) (o : Order) (pm : PaymentMethod) sim,
      o.paymentStatus = .completed →
      processPayment orderId (some o) pm sim =
        .error (.business "Payment already completed for this order")) ∧
    (∀ (orderId : String) (o : Order) (pm : PaymentMethod) sim,
      o.paymentStatus ≠ .completed → o.status = .cancelled →
      processPayment orderId (some o) pm sim =
        .error (.business "Cannot process payment for cancelled order")) ∧
    (∀ (orderId : String) (o : Order) (pm : PaymentMethod) sim e,
      o.paymentStatus ≠ .completed → o.status ≠ .cancelled →
      sim { orderId := orderId, paymentMethod := pm,
            amount := o.totalAmount, currency := o.currency } = .error e →
      processPayment orderId (some o) pm sim = .error e) ∧
    (∀ (orderId : String) (o : Order) (pm : PaymentMethod) sim r,
      o.paymentStatus ≠ .completed → o.status ≠ .cancelled →
      sim { orderId := orderId, paymentMethod := pm,
            amount := o.totalAmount, currency := o.currency } = .ok r →
      processPayment orderId (some o) pm sim = .ok { o with
        paymentStatus := r.status,
        paymentId := some r.paymentId,
        status := if r.status = .completed then .confirmed else o.status }) := by
  refine ⟨fun _ _ _ => rfl, ?_, ?_, ?_, ?_⟩
  · intro orderId o pm sim h
    simp [processPayment, h]
  · intro orderId o pm sim h1 h2
    simp [processPayment, h1, h2]
  · intro orderId o pm sim e h1 h2 hs
    simp [processPayment, h1, h2, hs]
  · intro orderId o pm sim r h1 h2 hs
    by_cases hr : r.status = PaymentStatus.completed
    · simp [processPayment, h1, h2, hs, hr]
    · simp [processPayment, h1, h2, hs, hr]

/-- Closed witness for `processPayment_spec`: a pending order whose
simulator reports a completed payment comes back confirmed, with the
returned payment status and identifier stored. -/
theorem processPayment_spec_witness :
    processPayment "order-1"
        (some { id := "order-1", userId := "user-1", status := .pending,
                paymentStatus := .pending, paymentId := none,
                totalAmount := 110, currency := "USD" })
        .credit_card
        (fun _ => .ok { paymentId := "pay-1", status := .completed,
                        transactionId := "TXN-1-a", message := "ok" }) =
      .ok { id := "order-1", userId := "user-1", status := .confirmed,
            paymentStatus := .completed, paymentId := some "pay-1",
            totalAmount := 110, currency := "USD" } := by
  have h := processPayment_spec.2.2.2.2 "order-1"
    { id := "order-1", userId := "user-1", status := .pending,
      paymentStatus := .pending, paymentId := none,
      totalAmount := 110, currency := "USD" }
    .credit_card
    (fun _ => .ok { paymentId := "pay-1", status := .completed,
                    transactionId := "TXN-1-a", message := "ok" })
    { paymentId := "pay-1", status := .completed,
      transactionId := "TXN-1-a", message := "ok" }
    (by decide) (by decide) rfl
  simpa using h

/-- C8: cancelOrder fails with a not-found error when no order has the id;
fails with a business error when the order is already cancelled; fails with
a business error when the status is shipped or delivered; and in every
other case (pending, confirmed, processing, refunded) succeeds and returns
the updated order with status cancelled. -/
theorem cancelOrder_spec :
    (∀ orderId : String, cancelOrder orderId none =
      .error (.notFound "Order" (some orderId))) ∧
    (∀ (orderId : String) (o : Order), o.status = .cancelled →
      cancelOrder orderId (some o) =
        .error (.business "Order is already cancelled")) ∧
    (∀ (orderId : String) (o : Order),
      o.status = .shipped ∨ o.status = .delivered →
      cancelOrder orderId (some o) = .error
        (.business "Cannot cancel order that has already been shipped or delivered")) ∧
    (∀ (orderId : String) (o : Order),
      o.status = .pending ∨ o.status = .confirmed ∨ o.status = .processing ∨
        o.status = .refunded →
      cancelOrder orderId (some o) = .ok { o with status := .cancelled }) := by
  refine ⟨fun _ => rfl, ?_, ?_, ?_⟩
  · intro orderId o h
    simp [cancelOrder, h]
  · intro orderId o h
    rcases h with h | h <;> simp [cancelOrder, h]
  · intro orderId o h
    rcases h with h | h | h | h <;> simp [cancelOrder, h]

/-- Closed witness for `cancelOrder_spec`: cancelling a pending order
succeeds with status cancelled, and cancelling a delivered order fails
with a business error. -/
theorem cancelOrder_spec_witness :
    cancelOrder "order-1"
        (some { id := "order-1", userId := "user-1", status := .pending,
                paymentStatus := .pending, paymentId := none,
                totalAmount := 20, currency := "USD" }) =
      .ok { id := "order-1", userId := "user-1", status := .cancelled,
            paymentStatus := .pending, paymentId := none,
            totalAmount := 20, currency := "USD" } ∧
    cancelOrder "order-2"
        (some { id := "order-2", userId := "user-1", status := .delivered,
                paymentStatus := .pending, paymentId := none,
                totalAmount := 20, currency := "USD" }) =
      .error (.business "Cannot cancel order that has already been shipped or delivered") :=
  ⟨cancelOrder_spec.2.2.2 "order-1" _ (Or.inl rfl),
   cancelOrder_spec.2.2.1 "order-2" _ (Or.inr rfl)⟩

/-- C3 counterexample: cancelOrder moves an order in the terminal status
refunded to cancelled, although refunded → cancelled is not an edge of the
transition graph — so not every status mutation made by the service
operations is validated by the transition validator. -/
theorem statusMutation_counterexample :
    cancelOrder "order-1"
        (some { id := "order-1", userId := "user-1", status := .refunded,
                paymentStatus := .pending, paymentId := none,
                totalAmount := 20, currency := "USD" }) =
      .ok { id := "order-1", userId := "user-1", status := .cancelled,
            paymentStatus := .pending, paymentId := none,
            totalAmount := 20, currency := "USD" } ∧
    validateStatusTransition .refunded .cancelled ≠ .ok () := by
  constructor
  · rfl
  · decide

/-- C3 amended: updateOrderStatus validates every status change with the
transition validator before writing it; cancelOrder and processPayment use
their own guards instead, which admit transitions outside the section-4.2
graph — cancelOrder succeeds on every status other than cancelled, shipped
and delivered, so it moves a refunded order to cancelled, and processPayment
either leaves the status unchanged or sets it to confirmed. -/
theorem statusMutationPolicy_amended :
    (∀ (orderId : String) (lookup : Option Order) (ns : OrderStatus) (o' : Order),
      updateOrderStatus orderId lookup ns = .ok o' →
      ∃ o, lookup = some o ∧ validateStatusTransition o.status ns = .ok () ∧
        o' = { o with status := ns }) ∧
    (∀ (orderId : String) (o o' : Order),
      cancelOrder orderId (some o) = .ok o' →
      o'.status = .cancelled ∧ o.status ≠ .cancelled ∧ o.status ≠ .shipped ∧
        o.status ≠ .delivered) ∧
    (∀ (orderId : String) (o : Order), o.status = .refunded →
      cancelOrder orderId (some o) = .ok { o with status := .cancelled }) ∧
    (∀ (orderId : String) (o o' : Order) (pm : PaymentMethod) sim,
      processPayment orderId (some o) pm sim = .ok o' →
      o'.status = .confirmed ∨ o'.status = o.status) := by
  refine ⟨?_, ?_, ?_, ?_⟩
  · intro orderId lookup ns o' h
    cases lookup with
    | none => simp [updateOrderStatus] at h
    | some o =>
      refine ⟨o, rfl, ?_⟩
      rcases hv : validateStatusTransition o.status ns with e | u
      · simp [updateOrderStatus, hv] at h
      · simp only [updateOrderStatus, hv] at h
        cases u
        exact ⟨rfl, by cases h; rfl⟩
  · intro orderId o o' h
    by_cases h1 : o.status = OrderStatus.cancelled
    · simp [cancelOrder, h1] at h
    · by_cases h2 : o.status = OrderStatus.delivered ∨ o.status = OrderStatus.shipped
      · simp [cancelOrder, h1, h2] at h
      · push_neg at h2
        simp [cancelOrder, h1, h2.1, h2.2] at h
        exact ⟨by rw [← h], h1, h2.2, h2.1⟩
  · intro orderId o h
    simp [cancelOrder, h]
  · intro orderId o o' pm sim h
    by_cases h1 : o.paymentStatus = PaymentStatus.completed
    · simp [processPayment, h1] at h
    · by_cases h2 : o.status = OrderStatus.cancelled
      · simp [processPayment, h1, h2] at h
      · rcases hs : sim { orderId := orderId, paymentMethod := pm, amount := o.totalAmount, currency := o.currency } with e | r
        · simp [processPayment, h1, h2, hs] at h
        · by_cases hr : r.status = PaymentStatus.completed
          · simp [processPayment, h1, h2, hs, hr] at h
            left
            rw [← h]
          · simp [processPayment, h1, h2, hs, hr] at h
            right
            rw [← h]

/-- Closed witness for the hypotheses of `statusMutationPolicy_amended`:
cancelOrder applied to a concrete refunded order succeeds with status
cancelled. -/
theorem statusMutationPolicy_amended_witness :
    cancelOrder "order-9"
        (some { id := "order-9", userId := "user-1", status := .refunded,
                paymentStatus := .pending, paymentId := none,
                totalAmount := 30, currency := "USD" }) =
      .ok { id := "order-9", userId := "user-1", status := .cancelled,
            paymentStatus := .pending, paymentId := none,
            totalAmount := 30, currency := "USD" } :=
  statusMutationPolicy_amended.2.2.1 "order-9" _ rfl

/-- C6 counterexample: at amount 10001 the simulator fails with the payment
error, but the failing call has already performed random draws — the random
delay draw and the payment-id and transaction-id draws — so the failure
does not occur before any randomization. -/
theorem paymentCeiling_counterexample :
    (paymentServiceProcessPayment
        { delayDraw := 0, uuid := "uuid-1", nowMillis := 5, txnSuffix := "abc",
          ccDraw := 0, ppDraw := 0 }
        { orderId := "order-1", paymentMethod := .credit_card,
          amount := 10001, currency := "USD" }).1 =
      .error (.payment "Payment amount exceeds limit") ∧
    (paymentServiceProcessPayment
        { delayDraw := 0, uuid := "uuid-1", nowMillis := 5, txnSuffix := "abc",
          ccDraw := 0, ppDraw := 0 }
        { orderId := "order-1", paymentMethod := .credit_card,
          amount := 10001, currency := "USD" }).2 ≠ [] := by
  constructor
  · decide
  · decide

/-- C6 amended: for every payment request with amount > 10000 the simulator
fails with a payment error regardless of payment method, but the failure
occurs after the random processing delay and after the random payment and
transaction identifiers are drawn — and before the method-specific
probability draws. -/
theorem paymentCeiling_amended (r : PaymentRandom) (d : ProcessPaymentDTO)
    (h : d.amount > 10000) :
    (paymentServiceProcessPayment r d).1 =
      .error (.payment "Payment amount exceeds limit") ∧
    (paymentServiceProcessPayment r d).2 =
      [.delayDraw, .uuidDraw, .txnDraw] := by
  constructor <;> simp [paymentServiceProcessPayment, simulatePaymentOutcome, h]

/-- Closed witness for `paymentCeiling_amended` at amount 10001 with the
paypal method. -/
theorem paymentCeiling_amended_witness :
    (paymentServiceProcessPayment
        { delayDraw := 1/2, uuid := "uuid-2", nowMillis := 7, txnSuffix := "xyz",
          ccDraw := 1/2, ppDraw := 1/2 }
        { orderId := "order-2", paymentMethod := .paypal,
          amount := 10001, currency := "USD" }).1 =
      .error (.payment "Payment amount exceeds limit") ∧
    (paymentServiceProcessPayment
        { delayDraw := 1/2, uuid := "uuid-2", nowMillis := 7, txnSuffix := "xyz",
          ccDraw := 1/2, ppDraw := 1/2 }
        { orderId := "order-2", paymentMethod := .paypal,
          amount := 10001, currency := "USD" }).2 =
      [.delayDraw, .uuidDraw, .txnDraw] :=
  paymentCeiling_amended _ _ (by norm_num)

/-- C7: for every payment request with amount ≤ 10000 the simulator returns
an outcome (never throws); the outcome is failed exactly in the
credit-card probability-0.10 branch and the paypal probability-0.05 branch
and completed in every other case — in particular always for debit_card,
stripe and bank_transfer, for any value of the random source; and every
outcome, success or failure, carries the freshly drawn payment identifier
and a transaction identifier of format TXN-<epoch millis>-<random suffix>. -/
theorem simulatePaymentOutcome_spec (r : PaymentRandom) (d : ProcessPaymentDTO)
    (h : d.amount ≤ 10000) :
    ∃ res, (paymentServiceProcessPayment r d).1 = .ok res ∧
      (res.status = .failed ↔
        (d.paymentMethod = .credit_card ∧ r.ccDraw < 1/10) ∨
        (d.paymentMethod = .paypal ∧ r.ppDraw < 1/20)) ∧
      (res.status = .completed ↔
        ¬ ((d.paymentMethod = .credit_card ∧ r.ccDraw < 1/10) ∨
           (d.paymentMethod = .paypal ∧ r.ppDraw < 1/20))) ∧
      (d.paymentMethod = .debit_card ∨ d.paymentMethod = .stripe ∨
        d.paymentMethod = .bank_transfer → res.status = .completed) ∧
      res.paymentId = r.uuid ∧
      res.transactionId = "TXN-" ++ toString r.nowMillis ++ "-" ++ r.txnSuffix := by
  have h' : ¬ d.amount > 10000 := not_lt.mpr h
  cases hm : d.paymentMethod with
  | credit_card =>
    by_cases hc : r.ccDraw < 1/10
    · have hc2 : r.ccDraw < (10:ℚ)⁻¹ := by rwa [one_div] at hc
      refine ⟨⟨r.uuid, .failed, "TXN-" ++ toString r.nowMillis ++ "-" ++ r.txnSuffix, "Credit card declined"⟩, ?_, ?_, ?_, ?_, rfl, rfl⟩
      · simp [paymentServiceProcessPayment, simulatePaymentOutcome, h', hm, hc2]
      · exact iff_of_true rfl (Or.inl ⟨rfl, hc⟩)
      · exact iff_of_false (by simp) (not_not_intro (Or.inl ⟨rfl, hc⟩))
      · simp
    · have hc2 : ¬ r.ccDraw < (10:ℚ)⁻¹ := by rwa [one_div] at hc
      refine ⟨⟨r.uuid, .completed, "TXN-" ++ toString r.nowMillis ++ "-" ++ r.txnSuffix, "Payment processed successfully"⟩, ?_, ?_, ?_, ?_, rfl, rfl⟩
      · simp [paymentServiceProcessPayment, simulatePaymentOutcome, h', hm, hc2]
      · refine iff_of_false (by simp) ?_
        rintro (⟨hx, hy⟩ | ⟨hx, hy⟩)
        · exact hc hy
        · cases hx
      · refine iff_of_true rfl ?_
        rintro (⟨hx, hy⟩ | ⟨hx, hy⟩)
        · exact hc hy
        · cases hx
      · simp
  | debit_card =>
    refine ⟨⟨r.uuid, .completed, "TXN-" ++ toString r.nowMillis ++ "-" ++ r.txnSuffix, "Payment processed successfully"⟩, ?_, ?_, ?_, ?_, rfl, rfl⟩
    · simp [paymentServiceProcessPayment, simulatePaymentOutcome, h', hm]
    · simp [hm]
    · simp [hm]
    · simp [hm]
  | paypal =>
    by_cases hp : r.ppDraw < 1/20
    · have hp2 : r.ppDraw < (20:ℚ)⁻¹ := by rwa [one_div] at hp
      refine ⟨⟨r.uuid, .failed, "TXN-" ++ toString r.nowMillis ++ "-" ++ r.txnSuffix, "PayPal payment failed"⟩, ?_, ?_, ?_, ?_, rfl, rfl⟩
      · simp [paymentServiceProcessPayment, simulatePaymentOutcome, h', hm, hp2]
      · exact iff_of_true rfl (Or.inr ⟨rfl, hp⟩)
      · exact iff_of_false (by simp) (not_not_intro (Or.inr ⟨rfl, hp⟩))
      · simp
    · have hp2 : ¬ r.ppDraw < (20:ℚ)⁻¹ := by rwa [one_div] at hp
      refine ⟨⟨r.uuid, .completed, "TXN-" ++ toString r.nowMillis ++ "-" ++ r.txnSuffix, "Payment processed successfully"⟩, ?_, ?_, ?_, ?_, rfl, rfl⟩
      · simp [paymentServiceProcessPayment, simulatePaymentOutcome, h', hm, hp2]
      · refine iff_of_false (by simp) ?_
        rintro (⟨hx, hy⟩ | ⟨hx, hy⟩)
        · cases hx
        · exact hp hy
      · refine iff_of_true rfl ?_
        rintro (⟨hx, hy⟩ | ⟨hx, hy⟩)
        · cases hx
        · exact hp hy
      · simp
  | stripe =>
    refine ⟨⟨r.uuid, .completed, "TXN-" ++ toString r.nowMillis ++ "-" ++ r.txnSuffix, "Payment processed successfully"⟩, ?_, ?_, ?_, ?_, rfl, rfl⟩
    · simp [paymentServiceProcessPayment, simulatePaymentOutcome, h', hm]
    · simp [hm]
    · simp [hm]
    · simp [hm]
  | bank_transfer =>
    refine ⟨⟨r.uuid, .completed, "TXN-" ++ toString r.nowMillis ++ "-" ++ r.txnSuffix, "Payment processed successfully"⟩, ?_, ?_, ?_, ?_, rfl, rfl⟩
    · simp [paymentServiceProcessPayment, simulatePaymentOutcome, h', hm]
    · simp [hm]
    · simp [hm]
    · simp [hm]

/-- Closed witness for `simulatePaymentOutcome_spec`: a debit-card request
of amount 100 with a concrete random source. -/
theorem simulatePaymentOutcome_spec_witness :
    ∃ res, (paymentServiceProcessPayment
        { delayDraw := 1/2, uuid := "uuid-3", nowMillis := 9, txnSuffix := "s9",
          ccDraw := 1/2, ppDraw := 1/2 }
        { orderId := "order-3", paymentMethod := .debit_card,
          amount := 100, currency := "USD" }).1 = .ok res ∧
      (res.status = .failed ↔
        ((PaymentMethod.debit_card = .credit_card ∧ (1/2 : ℚ) < 1/10) ∨
         (PaymentMethod.debit_card = .paypal ∧ (1/2 : ℚ) < 1/20))) ∧
      (res.status = .completed ↔
        ¬ ((PaymentMethod.debit_card = .credit_card ∧ (1/2 : ℚ) < 1/10) ∨
           (PaymentMethod.debit_card = .paypal ∧ (1/2 : ℚ) < 1/20))) ∧
      ((PaymentMethod.debit_card = .debit_card ∨
        PaymentMethod.debit_card = .stripe ∨
        PaymentMethod.debit_card = .bank_transfer) → res.status = .completed) ∧
      res.paymentId = "uuid-3" ∧
      res.transactionId = "TXN-" ++ toString (9 : Nat) ++ "-" ++ "s9" :=
  simulatePaymentOutcome_spec
    { delayDraw := 1/2, uuid := "uuid-3", nowMillis := 9, txnSuffix := "s9",
      ccDraw := 1/2, ppDraw := 1/2 }
    { orderId := "order-3", paymentMethod := .debit_card,
      amount := 100, currency := "USD" }
    (by norm_num)

/-- The rounding of zero is zero. -/
lemma round2_zero : round2 0 = 0 := by norm_num [round2, round_eq]

/-- The rounding of ten is ten. -/
lemma round2_ten : round2 10 = 10 := by norm_num [round2, round_eq]

/-- Rounding to 2 decimals commutes with adding an integer. -/
lemma round2_add_intCast (q : ℚ) (n : ℤ) : round2 (q + (n : ℚ)) = round2 q + n := by
  unfold round2
  have e : (q + (n : ℚ)) * 100 = q * 100 + ((n * 100 : ℤ) : ℚ) := by push_cast; ring
  rw [e, round_add_int]
  push_cast
  ring

/-- Rounding a sum to 2 decimals differs from the sum of the two roundings
by at most one cent. -/
lemma round2_add_bound (a b : ℚ) : |round2 (a + b) - (round2 a + round2 b)| ≤ 1/100 := by
  have h1 := abs_sub_round (a * 100 + b * 100)
  have h2 := abs_sub_round (a * 100)
  have h3 := abs_sub_round (b * 100)
  rw [abs_le] at h1 h2 h3
  have key : |round (a * 100 + b * 100) - round (a * 100) - round (b * 100)| ≤ 1 := by
    have hub : ((round (a * 100 + b * 100) - round (a * 100) - round (b * 100) : ℤ) : ℚ) < 2 := by
      push_cast
      linarith [h1.2, h2.1, h3.1]
    have hlb : (-2 : ℚ) < ((round (a * 100 + b * 100) - round (a * 100) - round (b * 100) : ℤ) : ℚ) := by
      push_cast
      linarith [h1.1, h2.2, h3.2]
    have hub2 : (round (a * 100 + b * 100) - round (a * 100) - round (b * 100) : ℤ) < 2 := by
      exact_mod_cast hub
    have hlb2 : (-2 : ℤ) < (round (a * 100 + b * 100) - round (a * 100) - round (b * 100) : ℤ) := by
      exact_mod_cast hlb
    rw [abs_le]
    omega
  have keyQ : |((round (a * 100 + b * 100) - round (a * 100) - round (b * 100) : ℤ) : ℚ)| ≤ 1 := by
    rw [← Int.cast_abs]
    exact_mod_cast key
  have e2 : round2 (a + b) - (round2 a + round2 b) =
      ((round (a * 100 + b * 100) - round (a * 100) - round (b * 100) : ℤ) : ℚ) / 100 := by
    unfold round2
    have e3 : (a + b) * 100 = a * 100 + b * 100 := by ring
    rw [e3]
    push_cast
    ring
  rw [e2, abs_div]
  rw [show |(100:ℚ)| = 100 by norm_num]
  linarith [keyQ]

/-- C4 counterexample: for the single line item of total price 7/500
(0.014), the calculator returns totalAmount 10.02 while
subtotal + taxAmount + shippingAmount - discountAmount of the rounded
outputs is 10.01, so the invariant does not hold as an equality of the
2-decimal values. -/
theorem totalsInvariant_counterexample :
    (calculateOrderTotals [{ productId := "p", productName := "n", productSku := "s", quantity := 1, unitPrice := 7/500, totalPrice := 7/500, productImage := none }]).totalAmount ≠
      (calculateOrderTotals [{ productId := "p", productName := "n", productSku := "s", quantity := 1, unitPrice := 7/500, totalPrice := 7/500, productImage := none }]).subtotal +
      (calculateOrderTotals [{ productId := "p", productName := "n", productSku := "s", quantity := 1, unitPrice := 7/500, totalPrice := 7/500, productImage := none }]).taxAmount +
      (calculateOrderTotals [{ productId := "p", productName := "n", productSku := "s", quantity := 1, unitPrice := 7/500, totalPrice := 7/500, productImage := none }]).shippingAmount -
      (calculateOrderTotals [{ productId := "p", productName := "n", productSku := "s", quantity := 1, unitPrice := 7/500, totalPrice := 7/500, productImage := none }]).discountAmount := by
  norm_num [calculateOrderTotals, round2, round_eq]

/-- C4 amended: for all non-empty line-item sequences the five rounded
values satisfy the invariant up to the independent-rounding error: the
absolute difference between totalAmount and
subtotal + taxAmount + shippingAmount - discountAmount is at most one
cent (1/100). -/
theorem totalsInvariant_amended (items : List OrderItem) (_h : items ≠ []) :
    |(calculateOrderTotals items).totalAmount -
      ((calculateOrderTotals items).subtotal + (calculateOrderTotals items).taxAmount +
        (calculateOrderTotals items).shippingAmount -
        (calculateOrderTotals items).discountAmount)| ≤ 1/100 := by
  simp only [calculateOrderTotals]
  set s : ℚ := items.foldl (fun sum item => sum + item.totalPrice) 0 with hs_def
  by_cases h100 : s > 100
  · have h50 : s > 50 := by linarith
    rw [if_pos h100, if_pos h50]
    have e1 : s + s * (1/10) + 0 - s * (1/10) = s := by ring
    rw [e1, round2_zero]
    have e2 : round2 s - (round2 s + round2 (s * (1/10)) + 0 - round2 (s * (1/10))) = 0 := by
      ring
    rw [e2]
    norm_num
  · rw [if_neg h100, round2_zero]
    by_cases h50 : s > 50
    · rw [if_pos h50, round2_zero]
      have e1 : s + s * (1/10) + 0 - 0 = s + s * (1/10) := by ring
      rw [e1]
      have e2 : round2 (s + s * (1/10)) - (round2 s + round2 (s * (1/10)) + 0 - 0) =
          round2 (s + s * (1/10)) - (round2 s + round2 (s * (1/10))) := by ring
      rw [e2]
      exact round2_add_bound s (s * (1/10))
    · rw [if_neg h50, round2_ten]
      have e1 : s + s * (1/10) + 10 - 0 = (s + s * (1/10)) + ((10 : ℤ) : ℚ) := by
        push_cast
        ring
      rw [e1, round2_add_intCast]
      have e2 : round2 (s + s * (1/10)) + ((10:ℤ):ℚ) -
          (round2 s + round2 (s * (1/10)) + 10 - 0) =
          round2 (s + s * (1/10)) - (round2 s + round2 (s * (1/10))) := by
        push_cast
        ring
      rw [e2]
      exact round2_add_bound s (s * (1/10))

/-- Closed witness for `totalsInvariant_amended` on a one-item list of
total price 1. -/
theorem totalsInvariant_amended_witness :
    (([{ productId := "p", productName := "n", productSku := "s", quantity := 1, unitPrice := 1, totalPrice := 1, productImage := none }] : List OrderItem) ≠ []) ∧
    |(calculateOrderTotals [{ productId := "p", productName := "n", productSku := "s", quantity := 1, unitPrice := 1, totalPrice := 1, productImage := none }]).totalAmount -
      ((calculateOrderTotals [{ productId := "p", productName := "n", productSku := "s", quantity := 1, unitPrice := 1, totalPrice := 1, productImage := none }]).subtotal +
       (calculateOrderTotals [{ productId := "p", productName := "n", productSku := "s", quantity := 1, unitPrice := 1, totalPrice := 1, productImage := none }]).taxAmount +
       (calculateOrderTotals [{ productId := "p", productName := "n", productSku := "s", quantity := 1, unitPrice := 1, totalPrice := 1, productImage := none }]).shippingAmount -
       (calculateOrderTotals [{ productId := "p", productName := "n", productSku := "s", quantity := 1, unitPrice := 1, totalPrice := 1, productImage := none }]).discountAmount)| ≤ 1/100 :=
  ⟨by simp, totalsInvariant_amended _ (by simp)⟩
